import Mathlib

/-!
Shallow embedding of the Knowledge-base-Search-Engine server
(src/server/main.py and src/server/my_rag.py).

The server is a FastAPI app with four stateful endpoints over one global
`MyRAGAgent` and one `pdfs` directory.  External effects (the PDF parser,
the text splitter, the vector-store similarity search, the embedding call
hidden in add_documents, and the hosted Gemini generation call) are
abstracted as an oracle record `Ext`; everything else is translated
directly from the Python source.
-/

namespace KBSE

/-- Bytes of an uploaded file (Python `bytes`). -/
abbrev Bytes := List Nat

/-- A loaded page or chunk (`langchain_core.documents.Document`):
only the text content matters to this codebase. -/
structure Document where
  page_content : String
deriving DecidableEq

/-- A chat-history entry: a LangChain message, carrying its `.type`
("human" for `HumanMessage`, "ai" for `AIMessage`) and `.content`. -/
structure Message where
  type : String
  content : String
deriving DecidableEq

/-- The whitespace characters removed by Python `str.strip()`. -/
def pyIsSpace (c : Char) : Bool :=
  c = ' ' || c = '\t' || c = '\n' || c = '\r' || c = '\x0b' || c = '\x0c'

/-- Python `str.strip()`. -/
def pyStrip (s : String) : String :=
  String.mk (((s.data.dropWhile pyIsSpace).reverse.dropWhile pyIsSpace).reverse)

/-- Python `str.lower()` (ASCII case folding, which is all the
filenames here exercise). -/
def pyLower (s : String) : String :=
  String.mk (s.data.map Char.toLower)

/-- Python `filename.lower().endswith(".pdf")`, the PDF-name test used by
upload, status and reset in main.py (stated on the character list, which
is what `str.endswith` tests). -/
def isPdfName (s : String) : Bool :=
  List.isSuffixOf ".pdf".data (pyLower s).data

/-- Python `l[-n:]`. -/
def lastN (n : Nat) (l : List α) : List α :=
  l.drop (l.length - n)

/-- Oracle for the external libraries and services the code calls.
Each fallible call is `Except String`, the error being `str(e)` of the
raised exception. -/
structure Ext where
  /-- Model of `PyPDFLoader(path).load()` on a file with the given bytes: the list
  of page documents, or a raised exception. -/
  pypdf_load : Bytes → Except String (List Document)
  /-- Model of `RecursiveCharacterTextSplitter(...).split_documents` (chunk_size
  1000, overlap 200): pages to chunks. -/
  split_documents : List Document → List Document
  /-- Model of `InMemoryVectorStore.similarity_search(question, k)` over the given
  stored chunks. -/
  similarity_search : List Document → String → Nat → Except String (List Document)
  /-- Failure oracle of `vector_store.add_documents` (it embeds every
  chunk via the hosted API before inserting; on failure nothing is
  inserted): `some e` when the call raises with message `e`. -/
  add_documents_error : List Document → Option String
  /-- Failure oracle of the external setup in `MyRAGAgent.__init__`
  (genai.configure, model and embeddings construction). -/
  init_error : Option String
  /-- Model of `self.gen_model.generate_content(prompt).text`: the generated text,
  or a raised exception. -/
  generate_content : String → Except String String

/-- The mutable state of `MyRAGAgent` (my_rag.py): the in-memory vector
store, modelled by the list of chunks it holds, and the chat history. -/
structure MyRAGAgent where
  chat_history : List Message
  vector_store : List Document
deriving DecidableEq

/-- Constructor `MyRAGAgent.__init__(gemini_api_key)`: raises on an empty key or on
external setup failure; otherwise a fresh agent with an empty vector
store and empty chat history. -/
def MyRAGAgent.init (ext : Ext) (gemini_api_key : String) : Except String MyRAGAgent :=
  if gemini_api_key = "" then
    .error "GEMINI_API_KEY is required to initialize MyRAGAgent"
  else
    match ext.init_error with
    | some e => .error ("RAG Agent initialization failed: " ++ e)
    | none => .ok { chat_history := [], vector_store := [] }

/-- One entry of the path list passed to `load_documents`: the filename
and, when the file exists on disk, its bytes. -/
abbrev PdfFile := String × Option Bytes

/-- The page-collection loop of `load_documents`: each missing file,
non-PDF name, loader exception or empty load is skipped (`continue`). -/
def collectDocs (ext : Ext) (files : List PdfFile) : List Document :=
  files.foldl
    (fun acc f =>
      match f.2 with
      | none => acc
      | some content =>
        if isPdfName f.1 then
          match ext.pypdf_load content with
          | .error _ => acc
          | .ok pages => if pages = [] then acc else acc ++ pages
        else acc)
    []

/-- Method `MyRAGAgent.load_documents(pdf_paths)`: load pages from each path,
split them into chunks, and append the chunks to the vector store;
raises when nothing loads, splitting yields no chunks, or
`add_documents` fails. -/
def MyRAGAgent.load_documents (ext : Ext) (ag : MyRAGAgent) (files : List PdfFile) :
    Except String MyRAGAgent :=
  if files = [] then .ok ag
  else
    let docs := collectDocs ext files
    if docs = [] then .error "Failed to load any documents"
    else
      let all_splits := ext.split_documents docs
      if all_splits = [] then
        .error "Document processing failed: Document splitting resulted in no chunks"
      else
        match ext.add_documents_error all_splits with
        | some e => .error ("Document processing failed: " ++ e)
        | none => .ok { ag with vector_store := ag.vector_store ++ all_splits }

/-- The LangGraph pipeline state (`State` in `_setup_graph`). -/
structure GState where
  messages : List Message
  question : String
  context : List Document
  answer : String
deriving DecidableEq

/-- The `retrieve` node: similarity search (k = 4) over the vector store;
an empty question or any exception yields an empty context. -/
def retrieve (ext : Ext) (store : List Document) (state : GState) : GState :=
  if state.question = "" then { state with context := [] }
  else
    match ext.similarity_search store state.question 4 with
    | .ok retrieved_docs => { state with context := retrieved_docs }
    | .error _ => { state with context := [] }

/-- The per-chunk block of `docs_content` in `generate`: the text is cut
at 800 characters with a trailing ellipsis. -/
def docBlock (i : Nat) (d : Document) : String :=
  if d.page_content.length > 800 then
    "Document " ++ toString (i + 1) ++ ":\n" ++ (d.page_content.take 800) ++ "..."
  else
    "Document " ++ toString (i + 1) ++ ":\n" ++ d.page_content

/-- The fixed prompt template of `generate`. -/
def promptText (context_section history_section question : String) : String :=
  "You are a helpful AI assistant that answers questions based on provided documents and conversation context.\n\n"
    ++ context_section ++ history_section
    ++ "Current Question: " ++ question
    ++ "\n\nInstructions:\n- Answer the question clearly and helpfully\n- Use information from the provided documents when relevant\n- If the documents don\x27t contain relevant information, say so clearly\n- Be concise but comprehensive\n- Maintain conversation context when appropriate\n\nAnswer:"

/-- The fallback answer of the `generate` node when the generation call
raises. -/
def generateErrorMessage : String :=
  "I apologize, but I encountered an error while generating a response. Please try again."

/-- The `generate` node: compose the prompt from the retrieved context
and the last 10 history messages, call the hosted model, and return the
answer with the `[HumanMessage, AIMessage]` pair; on any exception the
fixed apology message is returned instead (still with the message
pair).  The SDK response-shape dispatch (`.text` / `.content` /
`str(response)`) is collapsed into the oracle returning the text. -/
def generate (ext : Ext) (state : GState) : GState :=
  let question := state.question
  let docs_content :=
    if state.context = [] then ""
    else String.intercalate "\n\n" (state.context.enum.map (fun p => docBlock p.1 p.2))
  let history_text :=
    if state.messages = [] then ""
    else String.intercalate "\n"
      ((lastN 10 state.messages).map (fun m => m.type ++ ": " ++ m.content))
  let context_section :=
    if docs_content = "" then "" else "Relevant Information:\n" ++ docs_content ++ "\n\n"
  let history_section :=
    if history_text = "" then "" else "Recent Conversation:\n" ++ history_text ++ "\n\n"
  let prompt_text := promptText context_section history_section question
  match ext.generate_content prompt_text with
  | .ok gen_text =>
    { state with
      answer := gen_text
      messages := [⟨"human", question⟩, ⟨"ai", gen_text⟩] }
  | .error _ =>
    { state with
      answer := generateErrorMessage
      messages := [⟨"human", question⟩, ⟨"ai", generateErrorMessage⟩] }

/-- Pipeline `graph.invoke`: the compiled two-node sequence, `retrieve` then
`generate` (`StateGraph(State).add_sequence([retrieve, generate])` with
`START → retrieve`); nothing else runs. -/
def graphInvoke (ext : Ext) (store : List Document) (state : GState) : GState :=
  generate ext (retrieve ext store state)

/-- The initial pipeline state built by `ask`. -/
def initState (ag : MyRAGAgent) (question : String) : GState :=
  { messages := ag.chat_history
    question := pyStrip question
    context := []
    answer := "" }

/-- Method `MyRAGAgent.ask(question)`: reject an empty (stripped) question, run
the graph, extend the chat history with the returned messages, truncate
it to the last 20 entries, and return the answer together with the
updated agent. -/
def MyRAGAgent.ask (ext : Ext) (ag : MyRAGAgent) (question : String) :
    Except String (String × MyRAGAgent) :=
  if pyStrip question = "" then .error "Question cannot be empty"
  else
    let response := graphInvoke ext ag.vector_store (initState ag question)
    let extended :=
      if response.messages = [] then ag.chat_history
      else ag.chat_history ++ response.messages
    let chat_history :=
      if extended.length > 20 then lastN 20 extended else extended
    .ok (response.answer, { ag with chat_history := chat_history })

/-- The `pdfs` directory: filenames with their byte contents. -/
abbrev PdfsDir := List (String × Bytes)

/-- Python `os.listdir(pdfs_dir)`. -/
def listdir (dir : PdfsDir) : List String := dir.map Prod.fst

/-- Writing `content` to `pdfs_dir/name` (`open(file_path, "wb")`):
overwrite an existing entry or append a new one. -/
def fsWrite (dir : PdfsDir) (name : String) (content : Bytes) : PdfsDir :=
  if name ∈ listdir dir then
    dir.map (fun p => if p.1 = name then (name, content) else p)
  else dir ++ [(name, content)]

/-- The whole server state: the `pdfs` directory and the global
`my_rag_agent` (None when initialization failed at startup). -/
structure ServerState where
  pdfs : PdfsDir
  agent : Option MyRAGAgent
deriving DecidableEq

/-- An endpoint outcome: a body on HTTP 200, or a raised
`HTTPException(status_code, detail)`. -/
abbrev HResult (α : Type) := Except (Nat × String) α

/-- The HTTP status code of an endpoint outcome. -/
def httpStatus {α : Type} : HResult α → Nat
  | .ok _ => 200
  | .error e => e.1

/-- Response model of `POST /upload-pdf`. -/
structure UploadResponse where
  message : String
  filename : String
  status : String
deriving DecidableEq

/-- Response model of `POST /chat`. -/
structure ChatResponse where
  response : String
  status : String
deriving DecidableEq

/-- Response model of `GET /status`. -/
structure StatusResponse where
  status : String
  rag_agent_ready : Bool
  pdfs_directory : String
  documents_loaded : Nat
deriving DecidableEq

/-- The 50 MB upload cap (`50 * 1024 * 1024`). -/
def MB50 : Nat := 50 * 1024 * 1024

/-- Endpoint `POST /upload-pdf` (main.py `upload_pdf`): 503 without an agent, 400
on a missing or non-PDF filename, 413 over the size cap; otherwise the
file is written to the pdfs directory and `load_documents` is run on it,
any exception of which becomes a 500 (with the file left on disk). -/
def uploadPdf (ext : Ext) (st : ServerState) (filename : String) (content : Bytes) :
    HResult UploadResponse × ServerState :=
  match st.agent with
  | none =>
    (.error (503, "RAG Agent is not initialized. Please check server configuration."), st)
  | some ag =>
    if filename = "" then (.error (400, "No file provided"), st)
    else if isPdfName filename then
      if content.length > MB50 then
        (.error (413, "File too large. Maximum size is 50MB."), st)
      else
        let dir := fsWrite st.pdfs filename content
        match ag.load_documents ext [(filename, some content)] with
        | .ok ag2 =>
          (.ok { message := "Successfully uploaded and processed " ++ filename
                 filename := filename
                 status := "success" },
           { pdfs := dir, agent := some ag2 })
        | .error e =>
          (.error (500, "Internal server error: " ++ e), { pdfs := dir, agent := some ag })
    else (.error (400, "Only PDF files are allowed"), st)

/-- Endpoint `POST /chat` (main.py `chat`): 503 without an agent, 400 on an empty
(stripped) message; otherwise `ask` runs, any exception of which becomes
a 500. -/
def chat (ext : Ext) (st : ServerState) (message : String) :
    HResult ChatResponse × ServerState :=
  match st.agent with
  | none =>
    (.error (503, "RAG Agent is not initialized. Please check server configuration."), st)
  | some ag =>
    if pyStrip message = "" then (.error (400, "Message cannot be empty"), st)
    else
      match ag.ask ext message with
      | .ok r =>
        (.ok { response := r.1, status := "success" }, { st with agent := some r.2 })
      | .error e =>
        (.error (500, "Failed to generate response: " ++ e), st)

/-- Endpoint `GET /status` (main.py `get_status`): counts the files of the pdfs
directory whose lowercased name ends in ".pdf". -/
def getStatus (st : ServerState) : HResult StatusResponse :=
  .ok { status := "running"
        rag_agent_ready := st.agent.isSome
        pdfs_directory := "pdfs"
        documents_loaded := ((listdir st.pdfs).filter isPdfName).length }

/-- Endpoint `DELETE /reset` (main.py `reset_documents`): its `HTTPException(503)`
raises are swallowed by the handler`s own blanket `except Exception` and
re-raised as 500 (`str` of a starlette HTTPException is
"503: detail"); with an agent, every PDF-named file is removed and a
fresh `MyRAGAgent` replaces the global one (only on successful
construction). -/
def resetDocuments (ext : Ext) (st : ServerState) (gemini_api_key : String) :
    HResult String × ServerState :=
  match st.agent with
  | none =>
    (.error (500, "Failed to reset documents: 503: RAG Agent is not initialized"), st)
  | some _ =>
    let dir := st.pdfs.filter (fun p => !isPdfName p.1)
    if gemini_api_key = "" then
      (.error (500, "Failed to reset documents: 503: GEMINI_API_KEY not available"),
       { st with pdfs := dir })
    else
      match MyRAGAgent.init ext gemini_api_key with
      | .ok ag2 =>
        (.ok "All documents and chat history have been reset", { pdfs := dir, agent := some ag2 })
      | .error e =>
        (.error (500, "Failed to reset documents: " ++ e), { st with pdfs := dir })

/-- The count the spec describes for `documents_loaded`: the number of
files in the PDFs directory whose names end in ".pdf" case-insensitively
(stated over directory entries, independently of `get_status`). -/
def pdfFileCount (dir : PdfsDir) : Nat :=
  (dir.filter (fun p => isPdfName p.1)).length

/-- A concrete well-behaved oracle, used to instantiate hypotheses of the
proved theorems at concrete inputs. -/
def extW : Ext where
  pypdf_load := fun _ => .ok [⟨"page one text"⟩]
  split_documents := fun docs => docs
  similarity_search := fun store _ k => .ok (store.take k)
  add_documents_error := fun _ => none
  init_error := none
  generate_content := fun _ => .ok "An answer."

/-! ### Helper lemmas -/

lemma listdir_filter_of_removed (l : PdfsDir) :
    (listdir (l.filter (fun p => !isPdfName p.1))).filter isPdfName = [] := by
  induction l with
  | nil => rfl
  | cons a l ih =>
    by_cases h : isPdfName a.1
    · simp [listdir, List.filter_cons, h]
    · simp [listdir, List.filter_cons, h]

lemma length_filter_listdir (l : PdfsDir) :
    ((listdir l).filter isPdfName).length = pdfFileCount l := by
  induction l with
  | nil => rfl
  | cons a l ih =>
    by_cases h : isPdfName a.1
    · simpa [listdir, pdfFileCount, List.filter_cons, h] using ih
    · simpa [listdir, pdfFileCount, List.filter_cons, h] using ih

lemma mem_listdir_fsWrite (dir : PdfsDir) (name : String) (content : Bytes) :
    name ∈ listdir (fsWrite dir name content) := by
  unfold fsWrite
  by_cases hc : name ∈ listdir dir
  · rw [if_pos hc]
    obtain ⟨p, hp, hp1⟩ := List.mem_map.mp hc
    refine List.mem_map.mpr ⟨(name, content), ?_, rfl⟩
    exact List.mem_map.mpr ⟨p, hp, by rw [hp1, if_pos rfl]⟩
  · rw [if_neg hc]
    simp [listdir]

/-! ### C6: GET /status reports the true PDF count and agent readiness -/

/-- C6: for every GET /status request, `documents_loaded` equals the
number of files in the PDFs directory whose names end in ".pdf"
(case-insensitive), and `rag_agent_ready` is true exactly when the global
agent was successfully constructed. -/
theorem status_counts_pdfs_and_reports_agent (st : ServerState) (r : StatusResponse)
    (h : getStatus st = .ok r) :
    r.documents_loaded = pdfFileCount st.pdfs ∧
      (r.rag_agent_ready = true ↔ st.agent.isSome = true) := by
  have hr : r = { status := "running", rag_agent_ready := st.agent.isSome,
                  pdfs_directory := "pdfs",
                  documents_loaded := ((listdir st.pdfs).filter isPdfName).length } := by
    have := h.symm
    unfold getStatus at this
    exact (Except.ok.injEq _ _).mp this
  subst hr
  exact ⟨length_filter_listdir st.pdfs, Iff.rfl⟩

theorem status_counts_pdfs_and_reports_agent_witness :
    (⟨"running", false, "pdfs", 1⟩ : StatusResponse).documents_loaded =
        pdfFileCount [("a.pdf", []), ("b.txt", [])] ∧
      ((⟨"running", false, "pdfs", 1⟩ : StatusResponse).rag_agent_ready = true ↔
        (⟨[("a.pdf", []), ("b.txt", [])], none⟩ : ServerState).agent.isSome = true) :=
  status_counts_pdfs_and_reports_agent ⟨[("a.pdf", []), ("b.txt", [])], none⟩
    ⟨"running", false, "pdfs", 1⟩ rfl

/-! ### C1: DELETE /reset clears stored PDFs and rebuilds the agent -/

/-- C1: after a successful DELETE /reset, the PDFs directory holds no
file whose name ends in ".pdf" (case-insensitive), and the agent has
been reconstructed from scratch: empty vector index and empty chat
history. -/
theorem reset_clears_pdfs_and_rebuilds_agent (ext : Ext) (st : ServerState)
    (key r : String) (st2 : ServerState)
    (h : resetDocuments ext st key = (.ok r, st2)) :
    (listdir st2.pdfs).filter isPdfName = [] ∧
      st2.agent = some { chat_history := [], vector_store := [] } := by
  unfold resetDocuments at h
  cases hag : st.agent with
  | none => rw [hag] at h; simp at h
  | some ag =>
    rw [hag] at h
    by_cases hk : key = ""
    · rw [if_pos hk] at h; simp at h
    · rw [if_neg hk] at h
      unfold MyRAGAgent.init at h
      rw [if_neg hk] at h
      cases hie : ext.init_error with
      | some e => rw [hie] at h; simp at h
      | none =>
        rw [hie] at h
        have hst2 : st2 = ⟨st.pdfs.filter (fun p => !isPdfName p.1),
            some { chat_history := [], vector_store := [] }⟩ :=
          ((Prod.mk.injEq _ _ _ _).mp h).2.symm
        subst hst2
        exact ⟨listdir_filter_of_removed st.pdfs, rfl⟩

theorem reset_clears_pdfs_and_rebuilds_agent_witness :
    (listdir (⟨[], some ⟨[], []⟩⟩ : ServerState).pdfs).filter isPdfName = [] ∧
      (⟨[], some ⟨[], []⟩⟩ : ServerState).agent =
        some { chat_history := [], vector_store := [] } :=
  reset_clears_pdfs_and_rebuilds_agent extW
    ⟨[("a.pdf", [0, 1])], some ⟨[⟨"human", "q"⟩], [⟨"chunk"⟩]⟩⟩ "key"
    "All documents and chat history have been reset" ⟨[], some ⟨[], []⟩⟩ rfl

/-! ### C4: POST /upload-pdf rejects non-PDF names (400) and oversized
bodies (413) without touching any state -/

/-- C4: on an initialized agent, an upload whose filename does not end in
".pdf" (case-insensitive) is rejected with HTTP 400, and an upload of a
PDF-named file whose content exceeds 50 * 1024 * 1024 bytes is rejected
with HTTP 413 (in the code the extension check runs first, so the 413
case is stated for PDF-named files); in both cases the whole server
state — the PDFs directory and the vector index — is returned
unchanged. -/
theorem upload_rejects_non_pdf_and_oversized (ext : Ext) (st : ServerState)
    (ag : MyRAGAgent) (filename : String) (content : Bytes)
    (hag : st.agent = some ag) :
    (isPdfName filename = false →
      ∃ d, uploadPdf ext st filename content = (.error (400, d), st)) ∧
    (isPdfName filename = true → content.length > MB50 →
      uploadPdf ext st filename content =
        (.error (413, "File too large. Maximum size is 50MB."), st)) := by
  constructor
  · intro hnot
    by_cases hf : filename = ""
    · exact ⟨"No file provided", by simp [uploadPdf, hag, hf]⟩
    · exact ⟨"Only PDF files are allowed", by simp [uploadPdf, hag, hf, hnot]⟩
  · intro hpdf hbig
    have hf : filename ≠ "" := by
      intro he
      rw [he] at hpdf
      exact absurd hpdf (by decide)
    simp [uploadPdf, hag, hf, hpdf, hbig]

theorem upload_rejects_non_pdf_and_oversized_witness :
    (∃ d, uploadPdf extW ⟨[], some ⟨[], []⟩⟩ "notes.txt" [0] =
      (.error (400, d), ⟨[], some ⟨[], []⟩⟩)) ∧
    uploadPdf extW ⟨[], some ⟨[], []⟩⟩ "big.pdf" (List.replicate (MB50 + 1) 0) =
      (.error (413, "File too large. Maximum size is 50MB."), ⟨[], some ⟨[], []⟩⟩) :=
  ⟨(upload_rejects_non_pdf_and_oversized extW ⟨[], some ⟨[], []⟩⟩ ⟨[], []⟩
      "notes.txt" [0] rfl).1 (by decide),
   (upload_rejects_non_pdf_and_oversized extW ⟨[], some ⟨[], []⟩⟩ ⟨[], []⟩
      "big.pdf" (List.replicate (MB50 + 1) 0) rfl).2 (by decide)
      (by rw [List.length_replicate]; omega)⟩

/-! ### C5: POST /chat on an empty message.

The claim as stated quantifies over every POST /chat request, but when
the global agent failed to come up the 503 guard fires before the
empty-message check, so an empty message is answered 503, not 400; the
property holds once the agent is initialized. -/

/-- C5 counterexample: a whitespace-only message sent while the agent is
not initialized is answered with HTTP 503, not HTTP 400. -/
theorem chat_empty_message_no_agent_503 :
    pyStrip " " = "" ∧
      httpStatus (chat extW ⟨[], none⟩ " ").1 = 503 ∧
      ¬ httpStatus (chat extW ⟨[], none⟩ " ").1 = 400 := by
  refine ⟨by decide, rfl, by decide⟩

/-- C5 (amended): for every POST /chat request on an initialized agent
whose message is empty or whitespace-only, the service responds HTTP 400
with detail "Message cannot be empty", and the whole server state — in
particular the chat history and the vector index — is unchanged. -/
theorem chat_empty_message_rejected_400 (ext : Ext) (st : ServerState)
    (ag : MyRAGAgent) (m : String) (hag : st.agent = some ag)
    (hm : pyStrip m = "") :
    chat ext st m = (.error (400, "Message cannot be empty"), st) := by
  simp [chat, hag, hm]

theorem chat_empty_message_rejected_400_witness :
    chat extW ⟨[("a.pdf", [])], some ⟨[⟨"human", "q"⟩], [⟨"chunk"⟩]⟩⟩ "  " =
      (.error (400, "Message cannot be empty"),
        ⟨[("a.pdf", [])], some ⟨[⟨"human", "q"⟩], [⟨"chunk"⟩]⟩⟩) :=
  chat_empty_message_rejected_400 extW _ ⟨[⟨"human", "q"⟩], [⟨"chunk"⟩]⟩ "  " rfl (by decide)

/-! ### Pipeline lemmas shared by the ask-related claims -/

lemma retrieve_question (ext : Ext) (store : List Document) (s : GState) :
    (retrieve ext store s).question = s.question := by
  unfold retrieve
  split
  · rfl
  · split <;> rfl

lemma retrieve_messages (ext : Ext) (store : List Document) (s : GState) :
    (retrieve ext store s).messages = s.messages := by
  unfold retrieve
  split
  · rfl
  · split <;> rfl

lemma generate_messages (ext : Ext) (s : GState) :
    (generate ext s).messages =
      [⟨"human", s.question⟩, ⟨"ai", (generate ext s).answer⟩] := by
  unfold generate
  dsimp only
  split <;> rfl

lemma graphInvoke_messages (ext : Ext) (store : List Document) (s : GState) :
    (graphInvoke ext store s).messages =
      [⟨"human", s.question⟩, ⟨"ai", (graphInvoke ext store s).answer⟩] := by
  unfold graphInvoke
  rw [generate_messages, retrieve_question]

/-- On a non-empty question `ask` always succeeds, returning the answer
of `generate` applied to the state `retrieve` produced. -/
lemma ask_ok_answer (ext : Ext) (ag : MyRAGAgent) (q : String)
    (hq : pyStrip q ≠ "") :
    ∃ ag2, MyRAGAgent.ask ext ag q =
      .ok ((generate ext (retrieve ext ag.vector_store (initState ag q))).answer, ag2) := by
  unfold MyRAGAgent.ask
  rw [if_neg hq]
  exact ⟨_, rfl⟩

/-- The history update of `ask`, in the shape the code computes it. -/
lemma truncate_spec {α : Type} (L tail : List α) (hL : tail <:+ L)
    (htail : tail.length ≤ 20) :
    tail <:+ (if L.length > 20 then lastN 20 L else L) ∧
      (if L.length > 20 then lastN 20 L else L) <:+ L ∧
      (if L.length > 20 then lastN 20 L else L).length ≤ 20 := by
  by_cases h : L.length > 20
  · rw [if_pos h]
    obtain ⟨pre, hpre⟩ := hL
    have hlen : L.length = pre.length + tail.length := by
      rw [← hpre, List.length_append]
    refine ⟨?_, List.drop_suffix _ _, ?_⟩
    · unfold lastN
      have hle : L.length - 20 ≤ pre.length := by omega
      have hd := @List.drop_append_of_le_length _ pre tail (L.length - 20) hle
      rw [hpre] at hd
      rw [hd]
      exact List.suffix_append _ _
    · unfold lastN
      rw [List.length_drop]
      omega
  · rw [if_neg h]
    exact ⟨hL, List.suffix_refl L, by omega⟩

/-! ### C2: ask appends the conversation turn and truncates the history -/

/-- C2: every successful `ask` appends the (question, answer) pair of the
call — a `HumanMessage` with the (stripped) question and an `AIMessage`
with the returned answer — to the chat history, and afterwards the
history is a most-recent suffix of the extended history with at most 20
entries. -/
theorem ask_appends_turn_and_bounds_history (ext : Ext) (ag : MyRAGAgent)
    (q a : String) (ag2 : MyRAGAgent)
    (h : MyRAGAgent.ask ext ag q = .ok (a, ag2)) :
    [Message.mk "human" (pyStrip q), Message.mk "ai" a] <:+ ag2.chat_history ∧
      ag2.chat_history <:+
        ag.chat_history ++ [Message.mk "human" (pyStrip q), Message.mk "ai" a] ∧
      ag2.chat_history.length ≤ 20 := by
  unfold MyRAGAgent.ask at h
  by_cases hq : pyStrip q = ""
  · rw [if_pos hq] at h
    exact absurd h (by simp)
  · rw [if_neg hq] at h
    dsimp only at h
    rw [graphInvoke_messages] at h
    rw [show (initState ag q).question = pyStrip q from rfl] at h
    rw [if_neg (List.cons_ne_nil _ _)] at h
    have h2 := (Except.ok.injEq _ _).mp h
    have ha : (graphInvoke ext ag.vector_store (initState ag q)).answer = a :=
      congrArg Prod.fst h2
    have hb := congrArg Prod.snd h2
    subst ha
    dsimp only at hb
    rw [← hb]
    dsimp only
    exact truncate_spec
      (ag.chat_history ++
        [Message.mk "human" (pyStrip q),
          Message.mk "ai" (graphInvoke ext ag.vector_store (initState ag q)).answer])
      [Message.mk "human" (pyStrip q),
        Message.mk "ai" (graphInvoke ext ag.vector_store (initState ag q)).answer]
      (List.suffix_append _ _) (by simp)

theorem ask_appends_turn_and_bounds_history_witness :
    [Message.mk "human" (pyStrip "hi"), Message.mk "ai" "An answer."] <:+
        [⟨"human", "hi"⟩, ⟨"ai", "An answer."⟩] ∧
      ([⟨"human", "hi"⟩, ⟨"ai", "An answer."⟩] : List Message) <:+
        ([] : List Message) ++ [Message.mk "human" (pyStrip "hi"), Message.mk "ai" "An answer."] ∧
      ([⟨"human", "hi"⟩, ⟨"ai", "An answer."⟩] : List Message).length ≤ 20 := by
  have h := ask_appends_turn_and_bounds_history extW ⟨[], []⟩ "hi" "An answer."
    ⟨[⟨"human", "hi"⟩, ⟨"ai", "An answer."⟩], []⟩ rfl
  simpa using h

/-! ### C3: what a generation failure turns into.

The spec says every failure is mapped to a 500; in the code a failure of
the hosted generation call is caught inside the `generate` node, which
substitutes a fixed apology string, so `ask` succeeds and POST /chat
answers HTTP 200 with status "success".  Only exceptions that escape
`ask` itself reach the 500 handler. -/

/-- An oracle whose generation call always raises. -/
def extGenFail : Ext :=
  { extW with generate_content := fun _ => .error "Gemini API failure" }

/-- C3 counterexample: with an initialized agent and the non-empty
message "hello", the generation call raises (every `extGenFail`
generation call is an error by definition), yet POST /chat answers
HTTP 200 with status "success" and the fixed apology text — not 500. -/
theorem chat_generation_failure_maps_to_200 :
    chat extGenFail ⟨[], some ⟨[], []⟩⟩ "hello" =
      (.ok ⟨generateErrorMessage, "success"⟩,
        ⟨[], some ⟨[⟨"human", "hello"⟩, ⟨"ai", generateErrorMessage⟩], []⟩⟩) ∧
      httpStatus (chat extGenFail ⟨[], some ⟨[], []⟩⟩ "hello").1 = 200 :=
  ⟨rfl, rfl⟩

lemma generate_of_genfail (ext : Ext) (s : GState) (err : String)
    (hgen : ∀ p, ext.generate_content p = .error err) :
    generate ext s =
      { s with answer := generateErrorMessage
               messages := [⟨"human", s.question⟩, ⟨"ai", generateErrorMessage⟩] } := by
  unfold generate
  dsimp only
  rw [hgen]

/-- C3 (amended): on an initialized agent and a non-empty message, a
failure of the hosted generation call during answer generation is caught
inside the `generate` node and mapped to an HTTP 200 response whose text
is the fixed apology message; it is not surfaced as a 500 (the 500
mapping only applies to exceptions that escape `ask`). -/
theorem chat_generation_failure_yields_200_apology (ext : Ext) (st : ServerState)
    (ag : MyRAGAgent) (m err : String) (hag : st.agent = some ag)
    (hm : pyStrip m ≠ "") (hgen : ∀ p, ext.generate_content p = .error err) :
    ∃ ag2, chat ext st m =
        (.ok ⟨generateErrorMessage, "success"⟩, { st with agent := some ag2 }) ∧
      httpStatus (chat ext st m).1 = 200 := by
  obtain ⟨ag2, hask⟩ := ask_ok_answer ext ag m hm
  rw [generate_of_genfail ext _ err hgen] at hask
  dsimp only at hask
  refine ⟨ag2, ?_, ?_⟩ <;> simp [chat, hag, hm, hask, httpStatus]

theorem chat_generation_failure_yields_200_apology_witness :
    ∃ ag2, chat extGenFail ⟨[], some ⟨[], []⟩⟩ "hello" =
        (.ok ⟨generateErrorMessage, "success"⟩,
          { (⟨[], some ⟨[], []⟩⟩ : ServerState) with agent := some ag2 }) ∧
      httpStatus (chat extGenFail ⟨[], some ⟨[], []⟩⟩ "hello").1 = 200 :=
  chat_generation_failure_yields_200_apology extGenFail ⟨[], some ⟨[], []⟩⟩ ⟨[], []⟩
    "hello" "Gemini API failure" rfl (by decide) (fun _ => rfl)

/-! ### C7: ask is exactly retrieve followed by generate -/

/-- C7: on a non-empty question, `ask` runs the two-node sequence built
by `_setup_graph` — `retrieve`, a k = 4 similarity search over the vector
store with the (stripped) question, then `generate`, which builds the
prompt and calls the hosted model — and the returned answer is the
answer of `generate` applied to the state `retrieve` produced; no other
step exists in the graph. -/
theorem ask_runs_retrieve_then_generate (ext : Ext) (ag : MyRAGAgent) (q : String)
    (hq : pyStrip q ≠ "") :
    (∃ ag2, MyRAGAgent.ask ext ag q =
        .ok ((generate ext (retrieve ext ag.vector_store (initState ag q))).answer, ag2)) ∧
      (retrieve ext ag.vector_store (initState ag q)).context =
        (match ext.similarity_search ag.vector_store (pyStrip q) 4 with
          | .ok docs => docs
          | .error _ => []) := by
  constructor
  · exact ask_ok_answer ext ag q hq
  · unfold retrieve
    dsimp only [initState]
    rw [if_neg hq]
    cases ext.similarity_search ag.vector_store (pyStrip q) 4 <;> rfl

theorem ask_runs_retrieve_then_generate_witness :
    (∃ ag2, MyRAGAgent.ask extW ⟨[], [⟨"chunk"⟩]⟩ "hi" =
        .ok ((generate extW (retrieve extW (⟨[], [⟨"chunk"⟩]⟩ :
          MyRAGAgent).vector_store (initState ⟨[], [⟨"chunk"⟩]⟩ "hi"))).answer, ag2)) ∧
      (retrieve extW (⟨[], [⟨"chunk"⟩]⟩ : MyRAGAgent).vector_store
          (initState ⟨[], [⟨"chunk"⟩]⟩ "hi")).context =
        (match extW.similarity_search (⟨[], [⟨"chunk"⟩]⟩ :
            MyRAGAgent).vector_store (pyStrip "hi") 4 with
          | .ok docs => docs
          | .error _ => []) :=
  ask_runs_retrieve_then_generate extW ⟨[], [⟨"chunk"⟩]⟩ "hi" (by decide)

/-! ### C10: a retrieval failure is swallowed and ask still answers -/

/-- An oracle whose similarity search always raises. -/
def extSearchFail : Ext :=
  { extW with similarity_search := fun _ _ _ => .error "vector store failure" }

/-- C10: when the similarity search raises, `retrieve` catches the
exception and returns an empty context, the pipeline continues, and
`ask` still succeeds, its answer being the one `generate` produces from
the empty-context state. -/
theorem retrieve_failure_still_answers (ext : Ext) (ag : MyRAGAgent) (q e : String)
    (hq : pyStrip q ≠ "")
    (hs : ext.similarity_search ag.vector_store (pyStrip q) 4 = .error e) :
    (retrieve ext ag.vector_store (initState ag q)).context = [] ∧
      ∃ ag2, MyRAGAgent.ask ext ag q =
        .ok ((generate ext (retrieve ext ag.vector_store (initState ag q))).answer, ag2) := by
  constructor
  · unfold retrieve
    dsimp only [initState]
    rw [if_neg hq, hs]
  · exact ask_ok_answer ext ag q hq

theorem retrieve_failure_still_answers_witness :
    (retrieve extSearchFail (⟨[], [⟨"chunk"⟩]⟩ : MyRAGAgent).vector_store
        (initState ⟨[], [⟨"chunk"⟩]⟩ "hi")).context = [] ∧
      ∃ ag2, MyRAGAgent.ask extSearchFail ⟨[], [⟨"chunk"⟩]⟩ "hi" =
        .ok ((generate extSearchFail (retrieve extSearchFail (⟨[], [⟨"chunk"⟩]⟩ :
          MyRAGAgent).vector_store (initState ⟨[], [⟨"chunk"⟩]⟩ "hi"))).answer, ag2) :=
  retrieve_failure_still_answers extSearchFail ⟨[], [⟨"chunk"⟩]⟩ "hi"
    "vector store failure" (by decide) rfl

/-! ### load_documents on the single just-uploaded file -/

lemma collectDocs_singleton (ext : Ext) (name : String) (content : Bytes)
    (hpdf : isPdfName name = true) :
    collectDocs ext [(name, some content)] =
      (match ext.pypdf_load content with
        | .ok pages => if pages = [] then [] else pages
        | .error _ => []) := by
  unfold collectDocs
  dsimp only [List.foldl]
  rw [hpdf, if_pos rfl]
  cases ext.pypdf_load content with
  | error e => rfl
  | ok pages =>
    dsimp only
    by_cases hp : pages = []
    · simp [hp]
    · simp [hp]

lemma load_documents_singleton_ok_intro (ext : Ext) (ag : MyRAGAgent) (name : String)
    (content : Bytes) (pages : List Document)
    (hpdf : isPdfName name = true) (hl : ext.pypdf_load content = .ok pages)
    (hne : pages ≠ []) (hs : ext.split_documents pages ≠ [])
    (ha : ext.add_documents_error (ext.split_documents pages) = none) :
    MyRAGAgent.load_documents ext ag [(name, some content)] =
      .ok { ag with vector_store := ag.vector_store ++ ext.split_documents pages } := by
  unfold MyRAGAgent.load_documents
  rw [if_neg (by simp)]
  dsimp only
  rw [collectDocs_singleton ext name content hpdf, hl]
  dsimp only
  rw [if_neg hne, if_neg hne, if_neg hs, ha]

lemma load_documents_singleton_ok_elim (ext : Ext) (ag ag1 : MyRAGAgent) (name : String)
    (content : Bytes) (hpdf : isPdfName name = true)
    (h : MyRAGAgent.load_documents ext ag [(name, some content)] = .ok ag1) :
    ∃ pages, ext.pypdf_load content = .ok pages ∧ pages ≠ [] ∧
      ext.split_documents pages ≠ [] ∧
      ext.add_documents_error (ext.split_documents pages) = none ∧
      ag1 = { ag with vector_store := ag.vector_store ++ ext.split_documents pages } := by
  unfold MyRAGAgent.load_documents at h
  rw [if_neg (by simp)] at h
  dsimp only at h
  rw [collectDocs_singleton ext name content hpdf] at h
  cases hl : ext.pypdf_load content with
  | error e => rw [hl] at h; simp at h
  | ok pages =>
    rw [hl] at h
    dsimp only at h
    by_cases hp : pages = []
    · rw [if_pos hp, if_pos rfl] at h
      exact absurd h (by simp)
    · rw [if_neg hp, if_neg hp] at h
      by_cases hs : ext.split_documents pages = []
      · rw [if_pos hs] at h
        exact absurd h (by simp)
      · rw [if_neg hs] at h
        cases ha : ext.add_documents_error (ext.split_documents pages) with
        | some e => rw [ha] at h; simp at h
        | none =>
          rw [ha] at h
          exact ⟨pages, rfl, hp, hs, ha, ((Except.ok.injEq _ _).mp h).symm⟩

lemma load_documents_singleton_empty (ext : Ext) (ag : MyRAGAgent) (name : String)
    (content : Bytes) (hpdf : isPdfName name = true)
    (hl : ext.pypdf_load content = .ok []) :
    MyRAGAgent.load_documents ext ag [(name, some content)] =
      .error "Failed to load any documents" := by
  unfold MyRAGAgent.load_documents
  rw [if_neg (by simp)]
  dsimp only
  rw [collectDocs_singleton ext name content hpdf, hl]
  rfl

/-! ### upload success characterization -/

lemma uploadPdf_ok_intro (ext : Ext) (st : ServerState) (ag : MyRAGAgent)
    (filename : String) (content : Bytes) (pages : List Document)
    (hag : st.agent = some ag) (hf : filename ≠ "")
    (hpdf : isPdfName filename = true) (hsize : ¬ content.length > MB50)
    (hl : ext.pypdf_load content = .ok pages) (hne : pages ≠ [])
    (hs : ext.split_documents pages ≠ [])
    (ha : ext.add_documents_error (ext.split_documents pages) = none) :
    uploadPdf ext st filename content =
      (.ok { message := "Successfully uploaded and processed " ++ filename
             filename := filename
             status := "success" },
       ⟨fsWrite st.pdfs filename content,
        some { ag with vector_store := ag.vector_store ++ ext.split_documents pages }⟩) := by
  unfold uploadPdf
  rw [hag]
  dsimp only
  rw [if_neg hf, if_pos hpdf, if_neg hsize,
    load_documents_singleton_ok_intro ext ag filename content pages hpdf hl hne hs ha]

lemma uploadPdf_ok_elim (ext : Ext) (st : ServerState) (ag : MyRAGAgent)
    (filename : String) (content : Bytes) (resp : UploadResponse) (st1 : ServerState)
    (hag : st.agent = some ag)
    (h : uploadPdf ext st filename content = (.ok resp, st1)) :
    filename ≠ "" ∧ isPdfName filename = true ∧ ¬ content.length > MB50 ∧
      ∃ pages, ext.pypdf_load content = .ok pages ∧ pages ≠ [] ∧
        ext.split_documents pages ≠ [] ∧
        ext.add_documents_error (ext.split_documents pages) = none ∧
        st1 = ⟨fsWrite st.pdfs filename content,
               some { ag with vector_store := ag.vector_store ++ ext.split_documents pages }⟩ := by
  unfold uploadPdf at h
  rw [hag] at h
  dsimp only at h
  by_cases hf : filename = ""
  · rw [if_pos hf] at h; simp at h
  · rw [if_neg hf] at h
    by_cases hpdf : isPdfName filename
    · rw [if_pos hpdf] at h
      by_cases hsize : content.length > MB50
      · rw [if_pos hsize] at h; simp at h
      · rw [if_neg hsize] at h
        cases hld : MyRAGAgent.load_documents ext ag [(filename, some content)] with
        | error e => rw [hld] at h; simp at h
        | ok ag1 =>
          rw [hld] at h
          obtain ⟨pages, hl, hne, hs, ha, hag1⟩ :=
            load_documents_singleton_ok_elim ext ag ag1 filename content hpdf hld
          have hst1 := congrArg Prod.snd h
          dsimp only at hst1
          refine ⟨hf, hpdf, hsize, pages, hl, hne, hs, ha, ?_⟩
          rw [← hst1, hag1]
    · rw [if_neg hpdf] at h; simp at h

/-! ### C8: a successful upload appends chunks, preserves history,
deduplicates nothing -/

/-- C8: a successful POST /upload-pdf appends the new chunks to the
existing vector index — the new index is the old one followed by the
fresh chunks, so every previous chunk remains — the chat history is
untouched, and a second upload of the same file succeeds again and
appends the same chunks a second time. -/
theorem upload_appends_chunks_no_dedup (ext : Ext) (st : ServerState)
    (ag : MyRAGAgent) (filename : String) (content : Bytes)
    (resp : UploadResponse) (st1 : ServerState)
    (hag : st.agent = some ag)
    (h1 : uploadPdf ext st filename content = (.ok resp, st1)) :
    ∃ chunks ag1, chunks ≠ [] ∧ st1.agent = some ag1 ∧
      ag1.vector_store = ag.vector_store ++ chunks ∧
      (∀ d ∈ ag.vector_store, d ∈ ag1.vector_store) ∧
      ag1.chat_history = ag.chat_history ∧
      ∃ resp2 st2 ag2, uploadPdf ext st1 filename content = (.ok resp2, st2) ∧
        st2.agent = some ag2 ∧
        ag2.vector_store = ag.vector_store ++ chunks ++ chunks ∧
        ag2.chat_history = ag.chat_history := by
  obtain ⟨hf, hpdf, hsize, pages, hl, hne, hs, ha, hst1⟩ :=
    uploadPdf_ok_elim ext st ag filename content resp st1 hag h1
  refine ⟨ext.split_documents pages,
    { ag with vector_store := ag.vector_store ++ ext.split_documents pages },
    hs, by rw [hst1], rfl, fun d hd => List.mem_append_left _ hd, rfl,
    ?_⟩
  refine ⟨_, _, _, uploadPdf_ok_intro ext st1
    { ag with vector_store := ag.vector_store ++ ext.split_documents pages }
    filename content pages (by rw [hst1]) hf hpdf hsize hl hne hs ha, rfl, rfl, rfl⟩

theorem upload_appends_chunks_no_dedup_witness :
    ∃ chunks ag1, chunks ≠ [] ∧
      (⟨[("doc.pdf", [1, 2])], some ⟨[], [⟨"page one text"⟩]⟩⟩ : ServerState).agent = some ag1 ∧
      ag1.vector_store = (⟨[], []⟩ : MyRAGAgent).vector_store ++ chunks ∧
      (∀ d ∈ (⟨[], []⟩ : MyRAGAgent).vector_store, d ∈ ag1.vector_store) ∧
      ag1.chat_history = (⟨[], []⟩ : MyRAGAgent).chat_history ∧
      ∃ resp2 st2 ag2,
        uploadPdf extW ⟨[("doc.pdf", [1, 2])], some ⟨[], [⟨"page one text"⟩]⟩⟩
            "doc.pdf" [1, 2] = (.ok resp2, st2) ∧
        st2.agent = some ag2 ∧
        ag2.vector_store =
          (⟨[], []⟩ : MyRAGAgent).vector_store ++ chunks ++ chunks ∧
        ag2.chat_history = (⟨[], []⟩ : MyRAGAgent).chat_history :=
  upload_appends_chunks_no_dedup extW ⟨[], some ⟨[], []⟩⟩ ⟨[], []⟩ "doc.pdf" [1, 2]
    ⟨"Successfully uploaded and processed doc.pdf", "doc.pdf", "success"⟩
    ⟨[("doc.pdf", [1, 2])], some ⟨[], [⟨"page one text"⟩]⟩⟩ rfl rfl

/-! ### C9: upload is not atomic on indexing failure -/

/-- An oracle whose PDF loader extracts no content from any file. -/
def extEmptyPdf : Ext :=
  { extW with pypdf_load := fun _ => .ok [] }

/-- C9: when the uploaded PDF yields no content, `load_documents` raises
after the file was written, POST /upload-pdf answers HTTP 500, the file
stays in the PDFs directory — so a later GET /status counts it in
`documents_loaded` — while the vector index got none of its chunks (the
agent is unchanged). -/
theorem upload_failure_leaves_file_on_disk (ext : Ext) (st : ServerState)
    (ag : MyRAGAgent) (filename : String) (content : Bytes)
    (hag : st.agent = some ag) (hf : filename ≠ "")
    (hpdf : isPdfName filename = true) (hsize : ¬ content.length > MB50)
    (hl : ext.pypdf_load content = .ok []) :
    uploadPdf ext st filename content =
      (.error (500, "Internal server error: Failed to load any documents"),
       ⟨fsWrite st.pdfs filename content, some ag⟩) ∧
      filename ∈ listdir (fsWrite st.pdfs filename content) ∧
      (∀ r, getStatus ⟨fsWrite st.pdfs filename content, some ag⟩ = .ok r →
        0 < r.documents_loaded) := by
  refine ⟨?_, mem_listdir_fsWrite st.pdfs filename content, ?_⟩
  · unfold uploadPdf
    rw [hag]
    dsimp only
    rw [if_neg hf, if_pos hpdf, if_neg hsize,
      load_documents_singleton_empty ext ag filename content hpdf hl]
    rfl
  · intro r hr
    have hrd : r.documents_loaded =
        ((listdir (fsWrite st.pdfs filename content)).filter isPdfName).length := by
      have := (Except.ok.injEq _ _).mp hr.symm
      rw [this]
    rw [hrd]
    have hmem : filename ∈ (listdir (fsWrite st.pdfs filename content)).filter isPdfName :=
      List.mem_filter.mpr ⟨mem_listdir_fsWrite st.pdfs filename content, hpdf⟩
    exact List.length_pos.mpr (List.ne_nil_of_mem hmem)

theorem upload_failure_leaves_file_on_disk_witness :
    uploadPdf extEmptyPdf ⟨[], some ⟨[], [⟨"old chunk"⟩]⟩⟩ "doc.pdf" [1] =
      (.error (500, "Internal server error: Failed to load any documents"),
       ⟨fsWrite [] "doc.pdf" [1], some ⟨[], [⟨"old chunk"⟩]⟩⟩) ∧
      "doc.pdf" ∈ listdir (fsWrite [] "doc.pdf" [1]) ∧
      (∀ r, getStatus ⟨fsWrite [] "doc.pdf" [1], some ⟨[], [⟨"old chunk"⟩]⟩⟩ = .ok r →
        0 < r.documents_loaded) :=
  upload_failure_leaves_file_on_disk extEmptyPdf ⟨[], some ⟨[], [⟨"old chunk"⟩]⟩⟩
    ⟨[], [⟨"old chunk"⟩]⟩ "doc.pdf" [1] rfl (by decide) (by decide) (by decide) rfl

end KBSE
